import Mathlib

/-!
Shallow embedding of the client-side widgets of `src/static/app.js`
(slide player, two-team game board, PDF viewer) and proofs of the
specified properties.  JS numbers are modelled as `Int`, JS objects
with possibly-missing fields as `Option`, and a crashing property
access (`undefined.points`) as `Option`-valued lookup.
-/

namespace ClassReady

/-! ## Slide player (`initSlidePlayer`, app.js lines 24-65) -/

/-- A raw page as embedded in `window.__SLIDE__.pages`: either a bare
string or an object with (possibly missing) `title`/`content` fields. -/
inductive RawPage
  | str (s : String)
  | obj (title : Option String) (content : Option String)
deriving DecidableEq, Repr

/-- The slide player's closed-over mutable state: the page list and the
current index `idx` (a JS number, so modelled as `Int`). -/
structure SlideState where
  pages : List RawPage
  idx : Int
deriving DecidableEq, Repr

/-- `normalizePage(p)`: a string becomes a title-only page, a missing
entry (`undefined`, from an out-of-range index) becomes
`{title: "Page", content: ""}`, an object passes through.  The result
is the pair of (possibly absent) `title` and `content` fields. -/
def normalizePage : Option RawPage → Option String × Option String
  | some (.str s) => (some s, some "")
  | some (.obj t c) => (t, c)
  | none => (some "Page", some "")

/-- What `render()` writes to the DOM: title text, content text, the
`"current/total"` counter, and the disabled flags of the two buttons. -/
structure SlideRender where
  titleText : String
  contentText : String
  countText : String
  prevDisabled : Bool
  nextDisabled : Bool
deriving DecidableEq, Repr

/-- JS `list[idx]` for a possibly out-of-range (or negative) index. -/
def jsIndex (l : List RawPage) (i : Int) : Option RawPage :=
  if 0 ≤ i then l.get? i.toNat else none

/-- `render()` of the slide player (app.js lines 42-51).  Total: even an
out-of-range `idx` yields a default page via `normalizePage`, no error. -/
def render (s : SlideState) : SlideRender :=
  let total : Int := s.pages.length
  let p := normalizePage (jsIndex s.pages s.idx)
  { titleText := p.1.getD ""
    contentText := p.2.getD ""
    countText := toString (s.idx + 1) ++ "/" ++ toString total
    prevDisabled := s.idx = 0
    nextDisabled := s.idx = total - 1 }

/-- `initSlidePlayer` (app.js line 25): returns without installing the
widget exactly when `window.__SLIDE__` is absent; otherwise the widget
starts at index 0.  The page list is NOT checked for emptiness. -/
def initSlidePlayer : Option (List RawPage) → Option SlideState
  | none => none
  | some pages => some { pages := pages, idx := 0 }

/-- The slide-player events: the prev/next buttons, and the
ArrowLeft/ArrowRight/Escape keys (app.js lines 53-62). -/
inductive SlideOp
  | prevClick
  | nextClick
  | keyLeft
  | keyRight
  | keyEscape
deriving DecidableEq, Repr

/-- `idx = Math.max(0, idx - 1)` (prev button, ArrowLeft). -/
def slidePrev (s : SlideState) : SlideState :=
  { s with idx := max 0 (s.idx - 1) }

/-- `idx = Math.min(slide.pages.length - 1, idx + 1)` (next button,
ArrowRight). -/
def slideNext (s : SlideState) : SlideState :=
  { s with idx := min ((s.pages.length : Int) - 1) (s.idx + 1) }

/-- One slide-player event step.  Escape is a no-op (app.js line 59). -/
def runSlideOp (s : SlideState) : SlideOp → SlideState
  | .prevClick => slidePrev s
  | .keyLeft => slidePrev s
  | .nextClick => slideNext s
  | .keyRight => slideNext s
  | .keyEscape => s

/-- A sequence of slide-player events. -/
def runSlideOps (s : SlideState) (ops : List SlideOp) : SlideState :=
  ops.foldl runSlideOp s

/-! ## Game board (`initGameBoard`, app.js lines 69-190) -/

/-- The two teams ("A" / "B" in the handlers). -/
inductive Team
  | A
  | B
deriving DecidableEq, Repr

/-- One entry of `window.__GAME__.questions`: question text, answer
text, point value, and an optional `type` tag (`trap` / `bonus`). -/
structure Question where
  q : String
  a : String
  points : Int
  type : Option String
deriving DecidableEq, Repr

/-- The `window.__SCORES__` object. -/
structure Scores where
  scoreA : Int
  scoreB : Int
deriving DecidableEq, Repr

/-- The `window.__GAME__` object. -/
structure Game where
  questions : List Question
deriving DecidableEq, Repr

/-- The game board's closed-over mutable state: the two scores, the
`revealed` index set, the currently open question index (`null` when no
modal is open), and whether the question modal has the `show` class. -/
structure GameState where
  gameId : String
  questions : List Question
  scoreA : Int
  scoreB : Int
  revealed : Finset Nat
  currentIndex : Option Nat
  modalOpen : Bool
deriving DecidableEq

/-- `initGameBoard` (app.js lines 69-75): returns without installing
the widget exactly when `window.__GAME__` is absent; scores default to
0 when `window.__SCORES__` is absent.  The question list is NOT checked
for emptiness. -/
def initGameBoard (gameId : String) :
    Option Game → Option Scores → Option GameState
  | none, _ => none
  | some g, sc =>
    some { gameId := gameId
           questions := g.questions
           scoreA := (sc.map Scores.scoreA).getD 0
           scoreB := (sc.map Scores.scoreB).getD 0
           revealed := ∅
           currentIndex := none
           modalOpen := false }

/-- One `fetch` POST issued by `saveScores` (app.js lines 102-108):
the URL and the JSON body `{scoreA, scoreB}`. -/
structure ScoreRequest where
  url : String
  scoreA : Int
  scoreB : Int
deriving DecidableEq, Repr

/-- The request `saveScores()` builds from the current scores. -/
def saveScores (s : GameState) : ScoreRequest :=
  { url := "/api/games/" ++ s.gameId ++ "/scores"
    scoreA := s.scoreA
    scoreB := s.scoreB }

/-- `closeModalMarkRevealed` (app.js lines 132-137): records the open
question (if any) as revealed, hides the modal, clears `currentIndex`. -/
def closeModalMarkRevealed (s : GameState) : GameState :=
  { s with
    revealed := match s.currentIndex with
      | some i => insert i s.revealed
      | none => s.revealed
    modalOpen := false
    currentIndex := none }

/-- `openModalFor(index)` (app.js lines 110-130): records the index and
shows the modal. -/
def openModalFor (i : Nat) (s : GameState) : GameState :=
  { s with currentIndex := some i, modalOpen := true }

/-- `award(team, pointsOrZero)` (app.js lines 152-159): adds the points
to the chosen team's score, fires one `saveScores()` POST carrying the
updated scores (its outcome `netOk` is swallowed by `.catch(()=>{})`),
then closes the modal and marks the question revealed.  Returns the new
state and the list of issued requests paired with their outcomes. -/
def award (team : Team) (points : Int) (netOk : Bool) (s : GameState) :
    GameState × List (ScoreRequest × Bool) :=
  let s1 := match team with
    | .A => { s with scoreA := s.scoreA + points }
    | .B => { s with scoreB := s.scoreB + points }
  (closeModalMarkRevealed s1, [(saveScores s1, netOk)])

/-- The `skipBtn` click handler (app.js line 172): just
`closeModalMarkRevealed()`; no network request. -/
def skipClick (s : GameState) : GameState × List (ScoreRequest × Bool) :=
  (closeModalMarkRevealed s, [])

/-- The `resetBtn` click handler (app.js lines 174-181): if the
`confirm` dialog is declined, nothing happens; otherwise both scores are
zeroed, all revealed flags deleted, and one `saveScores()` POST of the
zeroed scores fired (outcome swallowed). -/
def resetClick (confirmed : Bool) (netOk : Bool) (s : GameState) :
    GameState × List (ScoreRequest × Bool) :=
  if confirmed then
    let s1 := { s with scoreA := 0, scoreB := 0, revealed := (∅ : Finset Nat) }
    (s1, [(saveScores s1, netOk)])
  else (s, [])

/-- JS `game.questions[currentIndex]`: `undefined` (here `none`) when
`currentIndex` is `null` or out of range. -/
def questionAt (qs : List Question) : Option Nat → Option Question
  | none => none
  | some i => qs.get? i

/-- The `aCorrect` click handler (app.js lines 161-164): reads
`game.questions[currentIndex].points` — a crashing access (`none`) when
the lookup yields `undefined` — then awards team A those points. -/
def aCorrectClick (netOk : Bool) (s : GameState) :
    Option (GameState × List (ScoreRequest × Bool)) :=
  (questionAt s.questions s.currentIndex).map fun item =>
    award .A item.points netOk s

/-- The `bCorrect` click handler (app.js lines 166-169). -/
def bCorrectClick (netOk : Bool) (s : GameState) :
    Option (GameState × List (ScoreRequest × Bool)) :=
  (questionAt s.questions s.currentIndex).map fun item =>
    award .B item.points netOk s

/-! ### Operation sequences for the score invariant -/

/-- The abstract game operations the score invariant quantifies over. -/
inductive GameOp
  | award (team : Team) (points : Int)
  | skip
  | reset
deriving DecidableEq, Repr

/-- One game operation applied to the state (network outcomes do not
affect the local state, so they are fixed to `true` here; `reset` is
the confirmed reset). -/
def runGameOp (s : GameState) : GameOp → GameState
  | .award t p => (award t p true s).1
  | .skip => (skipClick s).1
  | .reset => (resetClick true true s).1

/-- A sequence of game operations. -/
def runGameOps (s : GameState) (ops : List GameOp) : GameState :=
  ops.foldl runGameOp s

/-- Whether an operation is a reset. -/
def isReset : GameOp → Bool
  | .reset => true
  | _ => false

/-- Whether the sequence contains a reset. -/
def hasReset (ops : List GameOp) : Bool := ops.any isReset

/-- Sum of the points awarded to team A in the sequence. -/
def sumPtsA : List GameOp → Int
  | [] => 0
  | .award .A p :: rest => p + sumPtsA rest
  | _ :: rest => sumPtsA rest

/-- Sum of the points awarded to team B in the sequence. -/
def sumPtsB : List GameOp → Int
  | [] => 0
  | .award .B p :: rest => p + sumPtsB rest
  | _ :: rest => sumPtsB rest

/-- The suffix of the sequence strictly after its last reset
(meaningful only when `hasReset` holds). -/
def sinceLastReset : List GameOp → List GameOp
  | [] => []
  | op :: rest =>
    if hasReset rest then sinceLastReset rest
    else if isReset op then rest
    else sinceLastReset rest

/-- An operation either is not an award or awards non-negative points. -/
def awardOk : GameOp → Bool
  | .award _ p => decide (0 ≤ p)
  | _ => true

/-- All award operations in the sequence carry non-negative points. -/
def nonnegAwards (ops : List GameOp) : Bool := ops.all awardOk

/-! ## PDF viewer (app.js lines 194-296)

The viewer's closed-over variables are `pdfDoc` (modelled as a loaded
flag), `pageNum`, `totalPages`, and the busy flag `rendering`.  The two
awaits inside `renderPage` are suspension points of the event loop, so
other handlers can observe (and mutate) the state while `rendering` is
`true`; each handler is modelled as one atomic step on the state, and
whether the awaited page fetch/render succeeds is the step's `ok`
parameter.  `renderedPage` records which page the canvas last drew. -/

structure PdfState where
  pdfDoc : Bool
  pageNum : Int
  totalPages : Int
  rendering : Bool
  renderedPage : Option Int
deriving DecidableEq, Repr

/-- `renderPage(num)` (app.js lines 224-242): returns at once when no
document is loaded or a render is in flight.  Otherwise it sets
`rendering`, awaits the page fetch and draw — on success the canvas
shows page `num` and `rendering` is cleared (and `setButtons()` runs);
if the awaited promise rejects (`ok = false`) the function aborts with
`rendering` still `true`, since no code resets it. -/
def renderPage (num : Int) (ok : Bool) (s : PdfState) : PdfState :=
  if !s.pdfDoc || s.rendering then s
  else if ok then { s with rendering := false, renderedPage := some num }
  else { s with rendering := true }

/-- The PDF viewer events; `ok` is the outcome of the awaited
fetch/render inside the triggered `renderPage`. -/
inductive PdfOp
  | prevClick (ok : Bool)
  | nextClick (ok : Bool)
  | keyLeft (ok : Bool)
  | keyRight (ok : Bool)
  | resize (ok : Bool)
  | fsToggle (ok : Bool)
deriving DecidableEq, Repr

/-- One PDF viewer event (app.js lines 255-295): `prevBtn`/`nextBtn`
clicks guard on the boundary, decrement/increment `pageNum`, then call
`renderPage`; the ArrowLeft/ArrowRight key handlers are identical;
`resize` and the fullscreen toggle re-render the current page. -/
def runPdfOp (s : PdfState) : PdfOp → PdfState
  | .prevClick ok =>
    if s.pageNum ≤ 1 then s
    else renderPage (s.pageNum - 1) ok { s with pageNum := s.pageNum - 1 }
  | .nextClick ok =>
    if s.totalPages ≤ s.pageNum then s
    else renderPage (s.pageNum + 1) ok { s with pageNum := s.pageNum + 1 }
  | .keyLeft ok =>
    if 1 < s.pageNum then
      renderPage (s.pageNum - 1) ok { s with pageNum := s.pageNum - 1 }
    else s
  | .keyRight ok =>
    if s.pageNum < s.totalPages then
      renderPage (s.pageNum + 1) ok { s with pageNum := s.pageNum + 1 }
    else s
  | .resize ok => renderPage s.pageNum ok s
  | .fsToggle ok => renderPage s.pageNum ok s

/-- A sequence of PDF viewer events. -/
def runPdfOps (s : PdfState) (ops : List PdfOp) : PdfState :=
  ops.foldl runPdfOp s

/-- The viewer state right after a successful `getDocument` (app.js
lines 244-248): `pageNum = 1`, `totalPages = numPages`, followed by the
initial `renderPage(pageNum)` whose awaited work yields `ok0`. -/
def pdfInit (numPages : Int) (ok0 : Bool) : PdfState :=
  renderPage 1 ok0
    { pdfDoc := true, pageNum := 1, totalPages := numPages
      rendering := false, renderedPage := none }

/-- The `disabled` flags of the card buttons `renderGrid()` creates
(app.js lines 139-150): card `i` is disabled exactly when
`revealed[i]` is set, one card per question. -/
def renderGrid (s : GameState) : List Bool :=
  (List.range s.questions.length).map fun i => decide (i ∈ s.revealed)

/-! ## Lemmas -/

lemma map_isSome_eq (f : Question → GameState × List (ScoreRequest × Bool))
    (o : Option Question) : (o.map f).isSome = o.isSome := by
  cases o <;> rfl

lemma get?_isSome_iff (l : List Question) (n : Nat) :
    (l.get? n).isSome ↔ n < l.length := by
  rw [List.get?_eq_getElem?, Option.isSome_iff_exists]
  constructor
  · rintro ⟨a, ha⟩
    exact (List.getElem?_eq_some.mp ha).1
  · intro h
    exact ⟨l.get ⟨n, h⟩, List.getElem?_eq_getElem h⟩

lemma runSlideOps_nil (s : SlideState) : runSlideOps s [] = s := rfl

lemma runSlideOps_cons (s : SlideState) (op : SlideOp) (ops : List SlideOp) :
    runSlideOps s (op :: ops) = runSlideOps (runSlideOp s op) ops := rfl

lemma runSlideOp_pages (s : SlideState) (op : SlideOp) :
    (runSlideOp s op).pages = s.pages := by
  cases op <;> rfl

lemma runSlideOps_pages (s : SlideState) (ops : List SlideOp) :
    (runSlideOps s ops).pages = s.pages := by
  induction ops generalizing s with
  | nil => rfl
  | cons op ops ih => rw [runSlideOps_cons, ih, runSlideOp_pages]

lemma runSlideOp_idx_range (s : SlideState) (op : SlideOp)
    (hne : s.pages ≠ []) (h0 : 0 ≤ s.idx)
    (h1 : s.idx ≤ (s.pages.length : Int) - 1) :
    0 ≤ (runSlideOp s op).idx ∧
      (runSlideOp s op).idx ≤ ((runSlideOp s op).pages.length : Int) - 1 := by
  have hlen : 1 ≤ (s.pages.length : Int) := by
    have := List.length_pos.mpr hne
    omega
  rw [runSlideOp_pages]
  cases op <;>
    simp only [runSlideOp, slidePrev, slideNext] <;> omega

/-- Range invariant for any sequence of slide events over a non-empty
page list. -/
lemma runSlideOps_idx_range (s : SlideState) (ops : List SlideOp)
    (hne : s.pages ≠ []) (h0 : 0 ≤ s.idx)
    (h1 : s.idx ≤ (s.pages.length : Int) - 1) :
    0 ≤ (runSlideOps s ops).idx ∧
      (runSlideOps s ops).idx ≤ ((runSlideOps s ops).pages.length : Int) - 1 := by
  induction ops generalizing s with
  | nil => exact ⟨h0, h1⟩
  | cons op ops ih =>
    rw [runSlideOps_cons]
    have h := runSlideOp_idx_range s op hne h0 h1
    have hp : (runSlideOp s op).pages = s.pages := runSlideOp_pages s op
    exact ih (runSlideOp s op) (hp ▸ hne) h.1 (by rw [hp]; rw [hp] at h; exact h.2)

lemma runGameOps_cons (s : GameState) (op : GameOp) (ops : List GameOp) :
    runGameOps s (op :: ops) = runGameOps (runGameOp s op) ops := rfl

lemma runGameOp_scoreA (s : GameState) (op : GameOp) :
    (runGameOp s op).scoreA =
      match op with
      | .award .A p => s.scoreA + p
      | .reset => 0
      | _ => s.scoreA := by
  cases op with
  | award t p => cases t <;> rfl
  | skip => rfl
  | reset => rfl

lemma runGameOp_scoreB (s : GameState) (op : GameOp) :
    (runGameOp s op).scoreB =
      match op with
      | .award .B p => s.scoreB + p
      | .reset => 0
      | _ => s.scoreB := by
  cases op with
  | award t p => cases t <;> rfl
  | skip => rfl
  | reset => rfl

lemma hasReset_cons (op : GameOp) (ops : List GameOp) :
    hasReset (op :: ops) = (isReset op || hasReset ops) :=
  List.any_cons

lemma runGameOps_scoreA (ops : List GameOp) : ∀ s : GameState,
    (runGameOps s ops).scoreA =
      if hasReset ops then sumPtsA (sinceLastReset ops)
      else s.scoreA + sumPtsA ops := by
  induction ops with
  | nil => intro s; simp [runGameOps, hasReset, sumPtsA]
  | cons op rest ih =>
    intro s
    rw [runGameOps_cons, ih, hasReset_cons]
    by_cases hr : hasReset rest
    · simp [hr, sinceLastReset]
    · cases op with
      | award t p =>
        cases t <;>
          (simp [hr, sinceLastReset, isReset, sumPtsA, runGameOp_scoreA]; try omega)
      | skip => simp [hr, sinceLastReset, isReset, sumPtsA, runGameOp_scoreA]
      | reset => simp [hr, sinceLastReset, isReset, sumPtsA, runGameOp_scoreA]

lemma runGameOps_scoreB (ops : List GameOp) : ∀ s : GameState,
    (runGameOps s ops).scoreB =
      if hasReset ops then sumPtsB (sinceLastReset ops)
      else s.scoreB + sumPtsB ops := by
  induction ops with
  | nil => intro s; simp [runGameOps, hasReset, sumPtsB]
  | cons op rest ih =>
    intro s
    rw [runGameOps_cons, ih, hasReset_cons]
    by_cases hr : hasReset rest
    · simp [hr, sinceLastReset]
    · cases op with
      | award t p =>
        cases t <;>
          (simp [hr, sinceLastReset, isReset, sumPtsB, runGameOp_scoreB]; try omega)
      | skip => simp [hr, sinceLastReset, isReset, sumPtsB, runGameOp_scoreB]
      | reset => simp [hr, sinceLastReset, isReset, sumPtsB, runGameOp_scoreB]

lemma nonnegAwards_cons (op : GameOp) (ops : List GameOp)
    (h : nonnegAwards (op :: ops) = true) : nonnegAwards ops = true := by
  simp [nonnegAwards, List.all_cons] at h
  simp only [nonnegAwards, List.all_eq_true]
  exact h.2

lemma sumPtsA_nonneg (ops : List GameOp) (h : nonnegAwards ops = true) :
    0 ≤ sumPtsA ops := by
  induction ops with
  | nil => simp [sumPtsA]
  | cons op rest ih =>
    have hrest := ih (nonnegAwards_cons op rest h)
    cases op with
    | award t p =>
      have hp : 0 ≤ p := by
        simp [nonnegAwards, List.all_cons, awardOk] at h
        exact h.1
      cases t <;> (simp [sumPtsA]; omega)
    | skip => simpa [sumPtsA] using hrest
    | reset => simpa [sumPtsA] using hrest

lemma sumPtsB_nonneg (ops : List GameOp) (h : nonnegAwards ops = true) :
    0 ≤ sumPtsB ops := by
  induction ops with
  | nil => simp [sumPtsB]
  | cons op rest ih =>
    have hrest := ih (nonnegAwards_cons op rest h)
    cases op with
    | award t p =>
      have hp : 0 ≤ p := by
        simp [nonnegAwards, List.all_cons, awardOk] at h
        exact h.1
      cases t <;> (simp [sumPtsB]; omega)
    | skip => simpa [sumPtsB] using hrest
    | reset => simpa [sumPtsB] using hrest

lemma nonnegAwards_sinceLastReset (ops : List GameOp)
    (h : nonnegAwards ops = true) : nonnegAwards (sinceLastReset ops) = true := by
  induction ops with
  | nil => simpa [sinceLastReset] using h
  | cons op rest ih =>
    have hrest := nonnegAwards_cons op rest h
    by_cases hr : hasReset rest
    · simpa [sinceLastReset, hr] using ih hrest
    · by_cases hop : isReset op
      · simpa [sinceLastReset, hr, hop] using hrest
      · simpa [sinceLastReset, hr, hop] using ih hrest

lemma runPdfOps_cons (s : PdfState) (op : PdfOp) (ops : List PdfOp) :
    runPdfOps s (op :: ops) = runPdfOps (runPdfOp s op) ops := rfl

lemma renderPage_totalPages (num : Int) (ok : Bool) (s : PdfState) :
    (renderPage num ok s).totalPages = s.totalPages := by
  simp only [renderPage]
  split <;> [rfl; split <;> rfl]

lemma runPdfOp_totalPages (s : PdfState) (op : PdfOp) :
    (runPdfOp s op).totalPages = s.totalPages := by
  cases op <;> simp only [runPdfOp] <;>
    first
      | rw [renderPage_totalPages]
      | (split <;> simp [renderPage_totalPages])

lemma runPdfOp_pageNum_range (s : PdfState) (op : PdfOp)
    (h1 : 1 ≤ s.pageNum) (h2 : s.pageNum ≤ s.totalPages) :
    1 ≤ (runPdfOp s op).pageNum ∧
      (runPdfOp s op).pageNum ≤ (runPdfOp s op).totalPages := by
  have hrp : ∀ (num : Int) (ok : Bool) (t : PdfState),
      (renderPage num ok t).pageNum = t.pageNum := by
    intro num ok t
    simp only [renderPage]
    split <;> [rfl; split <;> rfl]
  rw [runPdfOp_totalPages]
  cases op <;> simp only [runPdfOp] <;> (try split) <;>
    (try simp [hrp]) <;> omega

/-- Range invariant for any sequence of PDF viewer events. -/
lemma runPdfOps_pageNum_range (ops : List PdfOp) : ∀ s : PdfState,
    1 ≤ s.pageNum → s.pageNum ≤ s.totalPages →
    1 ≤ (runPdfOps s ops).pageNum ∧
      (runPdfOps s ops).pageNum ≤ (runPdfOps s ops).totalPages := by
  induction ops with
  | nil => intro s h1 h2; exact ⟨h1, h2⟩
  | cons op rest ih =>
    intro s h1 h2
    rw [runPdfOps_cons]
    have h := runPdfOp_pageNum_range s op h1 h2
    exact ih _ h.1 h.2

lemma renderPage_busy (num : Int) (ok : Bool) (s : PdfState)
    (h : s.rendering = true) : renderPage num ok s = s := by
  simp [renderPage, h]

lemma runPdfOp_rendering_sticky (s : PdfState) (op : PdfOp)
    (h : s.rendering = true) : (runPdfOp s op).rendering = true := by
  have hrp : ∀ (num : Int) (ok : Bool) (t : PdfState), t.rendering = true →
      renderPage num ok t = t := renderPage_busy
  cases op <;> simp only [runPdfOp] <;>
    first
      | (split <;> simp_all [renderPage_busy])
      | simp_all [renderPage_busy]

lemma runPdfOps_rendering_sticky (ops : List PdfOp) : ∀ s : PdfState,
    s.rendering = true → (runPdfOps s ops).rendering = true := by
  induction ops with
  | nil => intro s h; exact h
  | cons op rest ih =>
    intro s h
    rw [runPdfOps_cons]
    exact ih _ (runPdfOp_rendering_sticky s op h)

/-! ## Claim theorems -/

/-- C2 counterexample: the claim quantifies over every page list, but
for the empty page list the code initializes at index 0 and a single
`next()` sets `idx = Math.min(0 - 1, 0 + 1) = -1`, outside the range
`[0, totalPages - 1]` (indeed negative). -/
theorem slide_index_claim_counterexample :
    ¬ (0 ≤ (runSlideOps { pages := [], idx := 0 } [SlideOp.nextClick]).idx ∧
       (runSlideOps { pages := [], idx := 0 } [SlideOp.nextClick]).idx ≤
         (([] : List RawPage).length : Int) - 1) := by
  decide

/-- C2 (amended): for every NON-EMPTY page list, starting at index 0,
every sequence of `next()`, `prev()` and equivalent arrow-key events
keeps the current index inside `[0, totalPages - 1]`; `next()` clamps
at the last page and `prev()` clamps at 0. -/
theorem slide_index_invariant (pages : List RawPage) (ops : List SlideOp)
    (hne : pages ≠ []) :
    (0 ≤ (runSlideOps { pages := pages, idx := 0 } ops).idx ∧
      (runSlideOps { pages := pages, idx := 0 } ops).idx ≤
        (pages.length : Int) - 1) ∧
    slideNext { pages := pages, idx := (pages.length : Int) - 1 } =
      { pages := pages, idx := (pages.length : Int) - 1 } ∧
    slidePrev { pages := pages, idx := 0 } = { pages := pages, idx := 0 } := by
  have hlen : 1 ≤ (pages.length : Int) := by
    have := List.length_pos.mpr hne
    omega
  refine ⟨?_, ?_, ?_⟩
  · have h := runSlideOps_idx_range { pages := pages, idx := 0 } ops hne
      (le_refl 0) (by simpa using hlen)
    rwa [runSlideOps_pages] at h
  · simp only [slideNext, SlideState.mk.injEq, true_and]
    try omega
  · simp only [slidePrev, SlideState.mk.injEq, true_and]
    try omega

/-- C2 witness: the amended invariant at a concrete two-page deck and a
concrete event sequence. -/
theorem slide_index_invariant_witness :
    (0 ≤ (runSlideOps { pages := [RawPage.str "a", RawPage.str "b"], idx := 0 }
        [SlideOp.nextClick, SlideOp.keyRight, SlideOp.prevClick]).idx ∧
      (runSlideOps { pages := [RawPage.str "a", RawPage.str "b"], idx := 0 }
        [SlideOp.nextClick, SlideOp.keyRight, SlideOp.prevClick]).idx ≤
        (([RawPage.str "a", RawPage.str "b"] : List RawPage).length : Int) - 1) ∧
    slideNext
      { pages := [RawPage.str "a", RawPage.str "b"],
        idx := (([RawPage.str "a", RawPage.str "b"] : List RawPage).length : Int) - 1 } =
      { pages := [RawPage.str "a", RawPage.str "b"],
        idx := (([RawPage.str "a", RawPage.str "b"] : List RawPage).length : Int) - 1 } ∧
    slidePrev { pages := [RawPage.str "a", RawPage.str "b"], idx := 0 } =
      { pages := [RawPage.str "a", RawPage.str "b"], idx := 0 } :=
  slide_index_invariant [RawPage.str "a", RawPage.str "b"]
    [SlideOp.nextClick, SlideOp.keyRight, SlideOp.prevClick] (by decide)

/-- C4 counterexample: with the global state object PRESENT but its
list EMPTY (no slide pages / no game questions), both widgets still
initialize, contrary to the claim that empty state prevents
initialization. -/
theorem widget_init_empty_counterexample :
    (initSlidePlayer (some [])).isSome = true ∧
    (initGameBoard "g1" (some { questions := [] }) none).isSome = true := by
  constructor
  · rfl
  · rfl

/-- C4 (amended): a widget fails to initialize exactly when its global
state object is absent (and then nothing runs, so no error); with the
global present but the list empty the widget still initializes, and
still no error is raised — the slide player's first render of an empty
deck is well-defined, showing the default title "Page" and the counter
"1/0". -/
theorem widget_init_iff_global_present (slide? : Option (List RawPage))
    (game? : Option Game) (scores? : Option Scores) (gid : String) :
    ((initSlidePlayer slide?).isSome ↔ slide?.isSome) ∧
    ((initGameBoard gid game? scores?).isSome ↔ game?.isSome) ∧
    render { pages := [], idx := 0 } =
      { titleText := "Page", contentText := "", countText := "1/0",
        prevDisabled := true, nextDisabled := false } := by
  refine ⟨?_, ?_, by decide⟩
  · cases slide? <;> simp [initSlidePlayer]
  · cases game? <;> simp [initGameBoard]

/-- C4 witness: the amended statement at concrete inputs (an absent
slide state and a present game state with an empty question list). -/
theorem widget_init_iff_global_present_witness :
    ((initSlidePlayer (none : Option (List RawPage))).isSome ↔
      (none : Option (List RawPage)).isSome) ∧
    ((initGameBoard "g1" (some { questions := [] }) none).isSome ↔
      (some { questions := [] } : Option Game).isSome) ∧
    render { pages := [], idx := 0 } =
      { titleText := "Page", contentText := "", countText := "1/0",
        prevDisabled := true, nextDisabled := false } :=
  widget_init_iff_global_present none (some { questions := [] }) none "g1"

/-- C1 counterexample: the claim holds neither for non-zero initial
scores restored from `window.__SCORES__` nor for negative question
point values (the `points` field is unconstrained JSON).  Starting from
`{scoreA: 7, scoreB: 0}` and running `award(B, -3)`: `scoreB = -3 < 0`,
and `scoreA = 7` differs from the sum (0) of points awarded to team A
since initialization. -/
theorem game_score_claim_counterexample :
    ¬ (0 ≤ (runGameOps
          { gameId := "g", questions := [], scoreA := 7, scoreB := 0,
            revealed := ∅, currentIndex := none, modalOpen := false }
          [GameOp.award Team.B (-3)]).scoreB ∧
       (runGameOps
          { gameId := "g", questions := [], scoreA := 7, scoreB := 0,
            revealed := ∅, currentIndex := none, modalOpen := false }
          [GameOp.award Team.B (-3)]).scoreA =
         sumPtsA [GameOp.award Team.B (-3)]) := by
  decide

/-- C1 (amended): for every starting state with non-negative scores and
every sequence of `award`/`skip`/`reset` operations whose awarded
points are all non-negative, both scores stay `≥ 0`, and each score
equals the sum of the points awarded to that team since the most recent
reset, or the initial score plus the sum awarded since initialization
when no reset occurred. -/
theorem game_score_invariant (s0 : GameState) (ops : List GameOp)
    (ha : 0 ≤ s0.scoreA) (hb : 0 ≤ s0.scoreB)
    (hp : nonnegAwards ops = true) :
    (0 ≤ (runGameOps s0 ops).scoreA ∧ 0 ≤ (runGameOps s0 ops).scoreB) ∧
    (runGameOps s0 ops).scoreA =
      (if hasReset ops then sumPtsA (sinceLastReset ops)
       else s0.scoreA + sumPtsA ops) ∧
    (runGameOps s0 ops).scoreB =
      (if hasReset ops then sumPtsB (sinceLastReset ops)
       else s0.scoreB + sumPtsB ops) := by
  have hA := runGameOps_scoreA ops s0
  have hB := runGameOps_scoreB ops s0
  refine ⟨⟨?_, ?_⟩, hA, hB⟩
  · rw [hA]
    by_cases hr : hasReset ops = true
    · rw [if_pos hr]
      exact sumPtsA_nonneg _ (nonnegAwards_sinceLastReset ops hp)
    · rw [if_neg hr]
      have := sumPtsA_nonneg ops hp
      omega
  · rw [hB]
    by_cases hr : hasReset ops = true
    · rw [if_pos hr]
      exact sumPtsB_nonneg _ (nonnegAwards_sinceLastReset ops hp)
    · rw [if_neg hr]
      have := sumPtsB_nonneg ops hp
      omega

/-- The start state used by the C1 witness. -/
def c1State : GameState :=
  { gameId := "g", questions := [], scoreA := 0, scoreB := 0,
    revealed := ∅, currentIndex := none, modalOpen := false }

/-- The operation sequence used by the C1 witness. -/
def c1Ops : List GameOp :=
  [GameOp.award Team.A 10, GameOp.reset, GameOp.award Team.B 5]

/-- C1 witness: the amended invariant at a concrete start state and a
concrete operation sequence containing a reset. -/
theorem game_score_invariant_witness :
    (0 ≤ c1State.scoreA ∧ 0 ≤ c1State.scoreB ∧ nonnegAwards c1Ops = true) ∧
    ((0 ≤ (runGameOps c1State c1Ops).scoreA ∧
        0 ≤ (runGameOps c1State c1Ops).scoreB) ∧
      (runGameOps c1State c1Ops).scoreA =
        (if hasReset c1Ops then sumPtsA (sinceLastReset c1Ops)
         else c1State.scoreA + sumPtsA c1Ops) ∧
      (runGameOps c1State c1Ops).scoreB =
        (if hasReset c1Ops then sumPtsB (sinceLastReset c1Ops)
         else c1State.scoreB + sumPtsB c1Ops)) :=
  ⟨⟨by decide, by decide, by decide⟩,
    game_score_invariant c1State c1Ops (by decide) (by decide) (by decide)⟩

/-- C5 (confirmed): with a question open (`currentIndex = some i`),
`award(team, points)` adds the points to the chosen team's score and
only that team's, closes the overlay, clears `currentIndex`, marks
question `i` revealed, and issues exactly one POST to
`/api/games/{gameId}/scores` whose body carries the locally updated
scores; the outcome `netOk` of that write never changes the resulting
local state — a network failure is swallowed with no retry, and the
updated scores and revealed state are retained. -/
theorem award_spec (team : Team) (p : Int) (netOk : Bool) (s : GameState)
    (i : Nat) (hcur : s.currentIndex = some i) :
    ((award team p netOk s).1.scoreA =
      if team = Team.A then s.scoreA + p else s.scoreA) ∧
    ((award team p netOk s).1.scoreB =
      if team = Team.B then s.scoreB + p else s.scoreB) ∧
    (award team p netOk s).1.modalOpen = false ∧
    (award team p netOk s).1.currentIndex = none ∧
    (award team p netOk s).1.revealed = insert i s.revealed ∧
    (award team p netOk s).2 =
      [({ url := "/api/games/" ++ s.gameId ++ "/scores",
          scoreA := (award team p netOk s).1.scoreA,
          scoreB := (award team p netOk s).1.scoreB }, netOk)] ∧
    (award team p netOk s).1 = (award team p true s).1 := by
  cases team <;> simp [award, closeModalMarkRevealed, saveScores, hcur]

/-- The concrete state used by the C5 witness: question 0 open, one
10-point question, both scores 0. -/
def c5State : GameState :=
  { gameId := "g7", questions := [{ q := "Q1", a := "A1", points := 10, type := none }],
    scoreA := 0, scoreB := 0, revealed := ∅,
    currentIndex := some 0, modalOpen := true }

/-- C5 witness: `award(A, 10)` with a failing network write at the
concrete state `c5State`. -/
theorem award_spec_witness :
    ((award Team.A 10 false c5State).1.scoreA =
      if Team.A = Team.A then c5State.scoreA + 10 else c5State.scoreA) ∧
    ((award Team.A 10 false c5State).1.scoreB =
      if Team.A = Team.B then c5State.scoreB + 10 else c5State.scoreB) ∧
    (award Team.A 10 false c5State).1.modalOpen = false ∧
    (award Team.A 10 false c5State).1.currentIndex = none ∧
    (award Team.A 10 false c5State).1.revealed = insert 0 c5State.revealed ∧
    (award Team.A 10 false c5State).2 =
      [({ url := "/api/games/" ++ c5State.gameId ++ "/scores",
          scoreA := (award Team.A 10 false c5State).1.scoreA,
          scoreB := (award Team.A 10 false c5State).1.scoreB }, false)] ∧
    (award Team.A 10 false c5State).1 = (award Team.A 10 true c5State).1 :=
  award_spec Team.A 10 false c5State 0 (by decide)

/-- The concrete scenario state of C6: `scoreA = 10`, `scoreB = 5`,
two questions, both revealed. -/
def c6State : GameState :=
  { gameId := "g2",
    questions := [{ q := "Q1", a := "A1", points := 10, type := none },
                  { q := "Q2", a := "A2", points := 20, type := none }],
    scoreA := 10, scoreB := 5, revealed := {0, 1},
    currentIndex := none, modalOpen := false }

/-- C6 (confirmed): the confirmed reset zeroes both scores, clears every
revealed flag, and persists the zeroed scores in one POST; a declined
confirmation changes nothing and sends nothing.  In the concrete
scenario (`scoreA = 10`, `scoreB = 5`, questions 0 and 1 revealed) both
scores become 0 and both cards are re-rendered clickable. -/
theorem reset_spec (netOk : Bool) (s : GameState) :
    (resetClick true netOk s).1.scoreA = 0 ∧
    (resetClick true netOk s).1.scoreB = 0 ∧
    (resetClick true netOk s).1.revealed = ∅ ∧
    (resetClick true netOk s).2 =
      [({ url := "/api/games/" ++ s.gameId ++ "/scores",
          scoreA := 0, scoreB := 0 }, netOk)] ∧
    resetClick false netOk s = (s, []) ∧
    (resetClick true true c6State).1.scoreA = 0 ∧
    (resetClick true true c6State).1.scoreB = 0 ∧
    renderGrid (resetClick true true c6State).1 = [false, false] ∧
    renderGrid c6State = [true, true] := by
  refine ⟨rfl, rfl, rfl, rfl, rfl, by decide, by decide, by decide, by decide⟩

/-- C8 (confirmed): with question `i` open, `skip()` closes the overlay
and marks question `i` revealed while leaving both team scores (and the
question list) unchanged, and it issues no network request. -/
theorem skip_spec (s : GameState) (i : Nat)
    (hcur : s.currentIndex = some i) :
    (skipClick s).1.scoreA = s.scoreA ∧
    (skipClick s).1.scoreB = s.scoreB ∧
    (skipClick s).1.questions = s.questions ∧
    (skipClick s).1.modalOpen = false ∧
    (skipClick s).1.currentIndex = none ∧
    (skipClick s).1.revealed = insert i s.revealed ∧
    (skipClick s).2 = [] := by
  simp [skipClick, closeModalMarkRevealed, hcur]

/-- C8 witness: `skip()` at the concrete state `c5State` (question 0
open). -/
theorem skip_spec_witness :
    (skipClick c5State).1.scoreA = c5State.scoreA ∧
    (skipClick c5State).1.scoreB = c5State.scoreB ∧
    (skipClick c5State).1.questions = c5State.questions ∧
    (skipClick c5State).1.modalOpen = false ∧
    (skipClick c5State).1.currentIndex = none ∧
    (skipClick c5State).1.revealed = insert 0 c5State.revealed ∧
    (skipClick c5State).2 = [] :=
  skip_spec c5State 0 (by decide)

/-- C9 (confirmed): the `aCorrect`/`bCorrect` handlers read
`game.questions[currentIndex].points`; the access succeeds exactly when
`currentIndex` holds a valid question index — in particular opening
question `i` with `openModalFor` makes them safe whenever
`i < questions.length` — and with `currentIndex` null (no question
open) the lookup fails, so the handlers are safe only under the
precondition that a question is open. -/
theorem correct_handlers_inbounds (netOk : Bool) (s : GameState) :
    ((aCorrectClick netOk s).isSome ↔
      ∃ i, s.currentIndex = some i ∧ i < s.questions.length) ∧
    ((bCorrectClick netOk s).isSome ↔
      ∃ i, s.currentIndex = some i ∧ i < s.questions.length) ∧
    (s.currentIndex = none →
      aCorrectClick netOk s = none ∧ bCorrectClick netOk s = none) ∧
    (∀ i, i < s.questions.length →
      (aCorrectClick netOk (openModalFor i s)).isSome = true ∧
      (bCorrectClick netOk (openModalFor i s)).isSome = true) := by
  have key : ∀ f : Question → GameState × List (ScoreRequest × Bool),
      ((questionAt s.questions s.currentIndex).map f).isSome ↔
        ∃ i, s.currentIndex = some i ∧ i < s.questions.length := by
    intro f
    cases h : s.currentIndex with
    | none => simp [questionAt]
    | some i =>
      simp only [questionAt, h]
      rw [map_isSome_eq, get?_isSome_iff]
      constructor
      · intro hi
        exact ⟨i, rfl, hi⟩
      · rintro ⟨j, hj, hjl⟩
        injection hj with hij
        exact hij ▸ hjl
  refine ⟨key _, key _, ?_, ?_⟩
  · intro h
    constructor <;> simp [aCorrectClick, bCorrectClick, questionAt, h]
  · intro i hi
    constructor <;>
      (simp only [aCorrectClick, bCorrectClick, questionAt, openModalFor]
       rw [map_isSome_eq, get?_isSome_iff]
       exact hi)

/-- C9 witness: the statement at the concrete state `c5State` (one
question, question 0 open). -/
theorem correct_handlers_inbounds_witness :
    ((aCorrectClick true c5State).isSome ↔
      ∃ i, c5State.currentIndex = some i ∧ i < c5State.questions.length) ∧
    ((bCorrectClick true c5State).isSome ↔
      ∃ i, c5State.currentIndex = some i ∧ i < c5State.questions.length) ∧
    (c5State.currentIndex = none →
      aCorrectClick true c5State = none ∧ bCorrectClick true c5State = none) ∧
    (∀ i, i < c5State.questions.length →
      (aCorrectClick true (openModalFor i c5State)).isSome = true ∧
      (bCorrectClick true (openModalFor i c5State)).isSome = true) :=
  correct_handlers_inbounds true c5State

/-- C3 counterexample: a next-page click arriving while a render is in
flight (`rendering = true`, document loaded, page 2 of 3) is NOT free
of effect on the viewer state: it advances `pageNum` to 3 (only the
render request itself is dropped). -/
theorem render_inflight_nav_counterexample :
    runPdfOp
        { pdfDoc := true, pageNum := 2, totalPages := 3,
          rendering := true, renderedPage := some 2 }
        (PdfOp.nextClick true) ≠
      { pdfDoc := true, pageNum := 2, totalPages := 3,
        rendering := true, renderedPage := some 2 } ∧
    (runPdfOp
        { pdfDoc := true, pageNum := 2, totalPages := 3,
          rendering := true, renderedPage := some 2 }
        (PdfOp.nextClick true)).pageNum = 3 := by
  decide

/-- C3 (amended): `renderPage(n)` is a no-op whenever a render is
already in flight or the document is not loaded, so renders never
overlap; but a page-navigation request arriving while a render is in
flight still updates `pageNum` — only its render request is dropped, so
the canvas (`renderedPage`) and the busy flag stay as they were. -/
theorem renderPage_exclusion (s : PdfState) (n : Int) (ok : Bool)
    (hbusy : s.rendering = true ∨ s.pdfDoc = false) :
    renderPage n ok s = s ∧
    (s.rendering = true → s.pageNum < s.totalPages →
      runPdfOp s (PdfOp.nextClick ok) = { s with pageNum := s.pageNum + 1 }) ∧
    (s.rendering = true → 1 < s.pageNum →
      runPdfOp s (PdfOp.prevClick ok) = { s with pageNum := s.pageNum - 1 }) := by
  refine ⟨?_, ?_, ?_⟩
  · rcases hbusy with h | h
    · exact renderPage_busy n ok s h
    · simp [renderPage, h]
  · intro hr hlt
    simp only [runPdfOp, if_neg (by omega : ¬ s.totalPages ≤ s.pageNum)]
    exact renderPage_busy _ ok _ hr
  · intro hr hgt
    simp only [runPdfOp, if_neg (by omega : ¬ s.pageNum ≤ 1)]
    exact renderPage_busy _ ok _ hr

/-- The in-flight viewer state used by the C3 witness: document loaded,
render of page 2 of 3 in flight. -/
def c3State : PdfState :=
  { pdfDoc := true, pageNum := 2, totalPages := 3,
    rendering := true, renderedPage := some 2 }

/-- C3 witness: the amended statement at the concrete in-flight state
`c3State`. -/
theorem renderPage_exclusion_witness :
    renderPage 2 true c3State = c3State ∧
    (c3State.rendering = true → c3State.pageNum < c3State.totalPages →
      runPdfOp c3State (PdfOp.nextClick true) =
        { c3State with pageNum := c3State.pageNum + 1 }) ∧
    (c3State.rendering = true → 1 < c3State.pageNum →
      runPdfOp c3State (PdfOp.prevClick true) =
        { c3State with pageNum := c3State.pageNum - 1 }) :=
  renderPage_exclusion c3State 2 true (Or.inl (by decide))

/-- C7 (confirmed): for a loaded document with at least one page, every
sequence of prev/next/arrow-key navigations (with arbitrary render
outcomes) keeps `pageNum` inside `[1, totalPages]`; a navigation
request at a boundary — which would move to page 0 or page
`totalPages + 1` — is a no-op for both the buttons and the keys. -/
theorem pdf_page_range_invariant (numPages : Int) (ok0 : Bool)
    (ops : List PdfOp) (hpos : 1 ≤ numPages) :
    (1 ≤ (runPdfOps (pdfInit numPages ok0) ops).pageNum ∧
      (runPdfOps (pdfInit numPages ok0) ops).pageNum ≤
        (runPdfOps (pdfInit numPages ok0) ops).totalPages) ∧
    (∀ (s : PdfState) (ok : Bool), s.pageNum ≤ 1 →
      runPdfOp s (PdfOp.prevClick ok) = s ∧
      runPdfOp s (PdfOp.keyLeft ok) = s) ∧
    (∀ (s : PdfState) (ok : Bool), s.totalPages ≤ s.pageNum →
      runPdfOp s (PdfOp.nextClick ok) = s ∧
      runPdfOp s (PdfOp.keyRight ok) = s) := by
  refine ⟨?_, ?_, ?_⟩
  · have hfields : (pdfInit numPages ok0).pageNum = 1 ∧
        (pdfInit numPages ok0).totalPages = numPages := by
      cases ok0 <;> exact ⟨rfl, rfl⟩
    exact runPdfOps_pageNum_range ops (pdfInit numPages ok0)
      (by omega) (by omega)
  · intro s ok h
    constructor
    · simp only [runPdfOp, if_pos h]
    · simp only [runPdfOp, if_neg (by omega : ¬ 1 < s.pageNum)]
  · intro s ok h
    constructor
    · simp only [runPdfOp, if_pos h]
    · simp only [runPdfOp, if_neg (by omega : ¬ s.pageNum < s.totalPages)]

/-- C7 witness: the range invariant for a three-page document and a
concrete navigation sequence including boundary presses and a failing
render. -/
theorem pdf_page_range_invariant_witness :
    (1 ≤ (runPdfOps (pdfInit 3 true)
        [PdfOp.nextClick true, PdfOp.keyRight false, PdfOp.nextClick true,
         PdfOp.prevClick true]).pageNum ∧
      (runPdfOps (pdfInit 3 true)
        [PdfOp.nextClick true, PdfOp.keyRight false, PdfOp.nextClick true,
         PdfOp.prevClick true]).pageNum ≤
        (runPdfOps (pdfInit 3 true)
          [PdfOp.nextClick true, PdfOp.keyRight false, PdfOp.nextClick true,
           PdfOp.prevClick true]).totalPages) ∧
    (∀ (s : PdfState) (ok : Bool), s.pageNum ≤ 1 →
      runPdfOp s (PdfOp.prevClick ok) = s ∧
      runPdfOp s (PdfOp.keyLeft ok) = s) ∧
    (∀ (s : PdfState) (ok : Bool), s.totalPages ≤ s.pageNum →
      runPdfOp s (PdfOp.nextClick ok) = s ∧
      runPdfOp s (PdfOp.keyRight ok) = s) :=
  pdf_page_range_invariant 3 true
    [PdfOp.nextClick true, PdfOp.keyRight false, PdfOp.nextClick true,
     PdfOp.prevClick true] (by decide)

/-- C10 (confirmed): if the awaited page fetch or render inside
`renderPage` rejects, the busy flag `rendering` is left `true` and no
code ever resets it: every later `renderPage` call — the one inside
navigation, window resize, or the fullscreen toggle — returns
immediately with no effect on the state, and `rendering` remains `true`
after every further event sequence. -/
theorem render_failure_sticks (s : PdfState) (n : Int)
    (hdoc : s.pdfDoc = true) (hidle : s.rendering = false) :
    (renderPage n false s).rendering = true ∧
    (∀ (m : Int) (ok : Bool),
      renderPage m ok (renderPage n false s) = renderPage n false s) ∧
    (∀ ok : Bool,
      runPdfOp (renderPage n false s) (PdfOp.resize ok) = renderPage n false s ∧
      runPdfOp (renderPage n false s) (PdfOp.fsToggle ok) = renderPage n false s) ∧
    (∀ ops : List PdfOp,
      (runPdfOps (renderPage n false s) ops).rendering = true) := by
  have h1 : (renderPage n false s).rendering = true := by
    simp [renderPage, hdoc, hidle]
  refine ⟨h1, fun m ok => renderPage_busy m ok _ h1, fun ok => ⟨?_, ?_⟩,
    fun ops => runPdfOps_rendering_sticky ops _ h1⟩
  · exact renderPage_busy _ ok _ h1
  · exact renderPage_busy _ ok _ h1

/-- The idle loaded viewer state used by the C10 witness. -/
def c10State : PdfState :=
  { pdfDoc := true, pageNum := 1, totalPages := 3,
    rendering := false, renderedPage := none }

/-- C10 witness: a failing render of page 1 at the concrete idle state
`c10State`. -/
theorem render_failure_sticks_witness :
    (renderPage 1 false c10State).rendering = true ∧
    (∀ (m : Int) (ok : Bool),
      renderPage m ok (renderPage 1 false c10State) =
        renderPage 1 false c10State) ∧
    (∀ ok : Bool,
      runPdfOp (renderPage 1 false c10State) (PdfOp.resize ok) =
        renderPage 1 false c10State ∧
      runPdfOp (renderPage 1 false c10State) (PdfOp.fsToggle ok) =
        renderPage 1 false c10State) ∧
    (∀ ops : List PdfOp,
      (runPdfOps (renderPage 1 false c10State) ops).rendering = true) :=
  render_failure_sticks c10State 1 (by decide) (by decide)

end ClassReady
